import Mathlib

/-!
Verification development for the `selvpc_licenses` Ansible module
(`ansible/modules/selvpc/selvpc_licenses.py`).

The module orchestrates license management against the Selectel VPC API:
it diffs desired license counts (per `(region, type)` key) against the
provider-reported actual counts and issues create/delete calls.

The functions `_check_license_exists`, `_system_state_change` and `main`
are embedded directly from the source file.  The helpers imported from
`ansible.module_utils.selvpc_utils` (`compare_existed_and_needed_objects`,
`_check_valid_quantity`, `parse_licenses_to_add`,
`get_project_licenses_quantity`, `get_project_by_name`, `add_licenses`,
`delete_license`, `get_licenses`) are not part of this source tree; each
of those carries a doc comment starting `Modelled from the spec:` and is
translated from the specification's description of the Reconciler, the
Gateway interface and the entry orchestration.  The third-party HTTP
client (`python-selvpcclient`) is abstracted as an oracle record of pure
functions.
-/

namespace Selvpc

/-- A license kind key: `(region, type)`. -/
abbrev Key := String × String

/-- Status of a provisioned license record: `ACTIVE` or anything else. -/
inductive Status where
  | active
  | other
deriving DecidableEq

/-- A single provisioned license unit as reported by the provider. -/
structure LicenseRecord where
  id : String
  region : String
  ltype : String
  status : Status
  project_id : String
deriving DecidableEq

/-- One desired-state entry `{region, quantity, type}` from the module's
`licenses` parameter.  The quantity is an integer as parsed from operator
input; validation of non-negativity happens separately. -/
structure LicenseRequirement where
  region : String
  ltype : String
  quantity : Int
deriving DecidableEq

/-- A mapping from keys to counts, as an association list (first match
wins, missing key counts as 0), mirroring the Python dicts. -/
abbrev CountMap := List (Key × Nat)

/-- Dictionary lookup with default 0. -/
def lookupD : CountMap → Key → Nat
  | [], _ => 0
  | (k', n) :: rest, k => if k' = k then n else lookupD rest k

/-- The keys of a `CountMap`. -/
def keys (m : CountMap) : List Key := m.map Prod.fst

@[simp] theorem lookupD_nil (k : Key) : lookupD [] k = 0 := rfl

@[simp] theorem lookupD_cons (k' : Key) (n : Nat) (m : CountMap) (k : Key) :
    lookupD ((k', n) :: m) k = if k' = k then n else lookupD m k := rfl

@[simp] theorem keys_nil : keys [] = [] := rfl

@[simp] theorem keys_cons (k' : Key) (n : Nat) (m : CountMap) :
    keys ((k', n) :: m) = k' :: keys m := rfl

theorem lookupD_eq_zero_of_not_mem {m : CountMap} {k : Key}
    (h : k ∉ keys m) : lookupD m k = 0 := by
  induction m with
  | nil => rfl
  | cons hd tl ih =>
    obtain ⟨k', n⟩ := hd
    simp only [keys_cons, List.mem_cons, not_or] at h
    simp only [lookupD_cons]
    rw [if_neg (fun he => h.1 he.symm)]
    exact ih h.2

theorem mem_keys_of_lookupD_pos {m : CountMap} {k : Key}
    (h : 0 < lookupD m k) : k ∈ keys m := by
  by_contra hk
  rw [lookupD_eq_zero_of_not_mem hk] at h
  exact Nat.lt_irrefl 0 h

/-- Lookup in a map built by tabulating a function over a key list. -/
theorem lookupD_map_tabulate (f : Key → Nat) (ks : List Key) (x : Key) :
    lookupD (ks.map fun k => (k, f k)) x = if x ∈ ks then f x else 0 := by
  induction ks with
  | nil => simp
  | cons k ks ih =>
    simp only [List.map_cons, lookupD_cons, List.mem_cons]
    by_cases hk : k = x
    · subst hk; simp
    · rw [if_neg hk, ih]
      by_cases hx : x ∈ ks
      · simp [hx]
      · have hxk : ¬x = k := fun h => hk h.symm
        simp [hx, hxk]

/-- Errors the module can surface (spec §7). -/
inductive GatewayError where
  | notFound
  | providerError
deriving DecidableEq

inductive SelvpcError where
  | invalidQuantity
  | projectNotFound
  | activeResourceConflict (k : Key)
  | missingParameters
  | gateway (e : GatewayError)
deriving DecidableEq

deriving instance DecidableEq for Except

/-! ## The Reconciler -/

/-- Per-key difference `desired − actual`, missing keys counting as 0. -/
def delta (actual desired : CountMap) (k : Key) : Int :=
  (lookupD desired k : Int) - (lookupD actual k : Int)

/-- Union of the key sets of the two maps, without duplicates (Python
dict keys are unique). -/
def unionKeys (actual desired : CountMap) : List Key :=
  (keys actual ++ keys desired).dedup

theorem mem_unionKeys {actual desired : CountMap} {k : Key} :
    k ∈ unionKeys actual desired ↔
      k ∈ keys actual ∨ k ∈ keys desired := by
  simp [unionKeys, List.mem_dedup]

/-- Worker of the reconciliation: walk the key list, accumulating
`to_add` / `to_delete`, refusing at the first key whose deletion is
blocked by an ACTIVE record without `force`. -/
def reconAux (actual desired : CountMap) (hasActive : Key → Bool)
    (force : Bool) : List Key → Except SelvpcError (CountMap × CountMap)
  | [] => Except.ok ([], [])
  | k :: ks =>
    if 0 < delta actual desired k then
      match reconAux actual desired hasActive force ks with
      | Except.error e => Except.error e
      | Except.ok (ta, td) =>
          Except.ok ((k, (delta actual desired k).toNat) :: ta, td)
    else if delta actual desired k < 0 then
      if hasActive k && !force then
        Except.error (SelvpcError.activeResourceConflict k)
      else
        match reconAux actual desired hasActive force ks with
        | Except.error e => Except.error e
        | Except.ok (ta, td) =>
            Except.ok (ta, (k, (-(delta actual desired k)).toNat) :: td)
    else reconAux actual desired hasActive force ks

/-- Modelled from the spec: `compare_existed_and_needed_objects` lives in
`ansible/module_utils/selvpc_utils/common.py`, which is not under this
source tree.  Spec §4.1: for every key in the union of `desired` and
`actual`, compute `delta = desired − actual`; positive deltas go to
`to_add`, negative deltas go to `to_delete` unless a matching record is
ACTIVE and `force` is false, in which case the computation fails with
`ActiveResourceConflict` naming the key.  The ACTIVE-status information
is threaded in as the predicate `hasActive`. -/
def compare_existed_and_needed_objects (actual desired : CountMap)
    (hasActive : Key → Bool) (force : Bool) :
    Except SelvpcError (CountMap × CountMap) :=
  reconAux actual desired hasActive force (unionKeys actual desired)

/-- Full characterization of a successful reconciliation pass: `to_add`
holds exactly the positive deltas of the processed keys, `to_delete`
exactly the negated negative ones. -/
theorem reconAux_ok_char (actual desired : CountMap) (hasActive : Key → Bool)
    (force : Bool) (ks : List Key) :
    ∀ ta td, reconAux actual desired hasActive force ks = Except.ok (ta, td) →
    ∀ k,
      (lookupD ta k = if k ∈ ks ∧ 0 < delta actual desired k
        then (delta actual desired k).toNat else 0) ∧
      (lookupD td k = if k ∈ ks ∧ delta actual desired k < 0
        then (-(delta actual desired k)).toNat else 0) ∧
      (k ∈ keys ta ↔ k ∈ ks ∧ 0 < delta actual desired k) ∧
      (k ∈ keys td ↔ k ∈ ks ∧ delta actual desired k < 0) := by
  induction ks with
  | nil =>
    intro ta td h k
    simp only [reconAux, Except.ok.injEq, Prod.mk.injEq] at h
    obtain ⟨h1, h2⟩ := h
    subst h1; subst h2
    simp
  | cons k0 ks ih =>
    intro ta td h k
    simp only [reconAux] at h
    by_cases hpos : 0 < delta actual desired k0
    · rw [if_pos hpos] at h
      cases hrec : reconAux actual desired hasActive force ks with
      | error e => rw [hrec] at h; exact absurd h (by simp)
      | ok p =>
        obtain ⟨ta', td'⟩ := p
        rw [hrec] at h
        simp only [Except.ok.injEq, Prod.mk.injEq] at h
        obtain ⟨h1, h2⟩ := h
        subst h1; subst h2
        obtain ⟨iha, ihd, ihma, ihmd⟩ := ih ta' td' hrec k
        by_cases hk : k0 = k
        · subst hk
          refine ⟨?_, ?_, ?_, ?_⟩
          · simp [hpos]
          · rw [ihd]
            have : ¬ delta actual desired k0 < 0 := by omega
            simp [this]
          · simp [hpos]
          · rw [ihmd]
            have : ¬ delta actual desired k0 < 0 := by omega
            simp [this]
        · have hk' : ¬ k = k0 := fun h => hk h.symm
          refine ⟨?_, ?_, ?_, ?_⟩
          · rw [lookupD_cons, if_neg hk, iha]
            simp [List.mem_cons, hk']
          · rw [ihd]; simp [List.mem_cons, hk']
          · simp only [keys_cons, List.mem_cons]
            rw [or_iff_right hk']
            rw [ihma]
            constructor
            · rintro ⟨hm, hd⟩; exact ⟨Or.inr hm, hd⟩
            · rintro ⟨hm | hm, hd⟩
              · exact absurd hm hk'
              · exact ⟨hm, hd⟩
          · rw [ihmd]; simp [List.mem_cons, hk']
    · rw [if_neg hpos] at h
      by_cases hneg : delta actual desired k0 < 0
      · rw [if_pos hneg] at h
        by_cases hblock : hasActive k0 && !force
        · rw [if_pos hblock] at h
          exact absurd h (by simp)
        · rw [if_neg hblock] at h
          cases hrec : reconAux actual desired hasActive force ks with
          | error e => rw [hrec] at h; exact absurd h (by simp)
          | ok p =>
            obtain ⟨ta', td'⟩ := p
            rw [hrec] at h
            simp only [Except.ok.injEq, Prod.mk.injEq] at h
            obtain ⟨h1, h2⟩ := h
            subst h1; subst h2
            obtain ⟨iha, ihd, ihma, ihmd⟩ := ih ta' td' hrec k
            by_cases hk : k0 = k
            · subst hk
              refine ⟨?_, ?_, ?_, ?_⟩
              · rw [iha]; simp [hpos]
              · simp [hneg]
              · rw [ihma]; simp [hpos]
              · simp [hneg]
            · have hk' : ¬ k = k0 := fun h => hk h.symm
              refine ⟨?_, ?_, ?_, ?_⟩
              · rw [iha]; simp [List.mem_cons, hk']
              · rw [lookupD_cons, if_neg hk, ihd]
                simp [List.mem_cons, hk']
              · rw [ihma]; simp [List.mem_cons, hk']
              · simp only [keys_cons, List.mem_cons]
                rw [or_iff_right hk']
                rw [ihmd]
                constructor
                · rintro ⟨hm, hd⟩; exact ⟨Or.inr hm, hd⟩
                · rintro ⟨hm | hm, hd⟩
                  · exact absurd hm hk'
                  · exact ⟨hm, hd⟩
      · rw [if_neg hneg] at h
        obtain ⟨iha, ihd, ihma, ihmd⟩ := ih ta td h k
        have hz : delta actual desired k0 = 0 := by omega
        by_cases hk : k0 = k
        · subst hk
          refine ⟨?_, ?_, ?_, ?_⟩
          · rw [iha]; simp [hz]
          · rw [ihd]; simp [hz]
          · rw [ihma]; simp [hz]
          · rw [ihmd]; simp [hz]
        · have hk' : ¬ k = k0 := fun h => hk h.symm
          refine ⟨?_, ?_, ?_, ?_⟩
          · rw [iha]; simp [List.mem_cons, hk']
          · rw [ihd]; simp [List.mem_cons, hk']
          · rw [ihma]; simp [List.mem_cons, hk']
          · rw [ihmd]; simp [List.mem_cons, hk']

/-- When every processed key has delta 0, reconciliation returns two
empty maps. -/
theorem reconAux_zero (actual desired : CountMap) (hasActive : Key → Bool)
    (force : Bool) (ks : List Key)
    (h : ∀ k ∈ ks, delta actual desired k = 0) :
    reconAux actual desired hasActive force ks = Except.ok ([], []) := by
  induction ks with
  | nil => rfl
  | cons k0 ks ih =>
    have h0 : delta actual desired k0 = 0 := h k0 (List.mem_cons_self k0 ks)
    simp only [reconAux, h0]
    norm_num
    exact ih fun k hk => h k (List.mem_cons_of_mem k0 hk)

/-- With `force = true` reconciliation never fails. -/
theorem reconAux_force_ok (actual desired : CountMap) (hasActive : Key → Bool)
    (ks : List Key) :
    ∃ ta td, reconAux actual desired hasActive true ks = Except.ok (ta, td) := by
  induction ks with
  | nil => exact ⟨[], [], rfl⟩
  | cons k0 ks ih =>
    obtain ⟨ta, td, hrec⟩ := ih
    by_cases hpos : 0 < delta actual desired k0
    · refine ⟨(k0, (delta actual desired k0).toNat) :: ta, td, ?_⟩
      simp only [reconAux, if_pos hpos, hrec]
    · by_cases hneg : delta actual desired k0 < 0
      · refine ⟨ta, (k0, (-(delta actual desired k0)).toNat) :: td, ?_⟩
        simp only [reconAux, if_neg hpos, if_pos hneg, Bool.not_true,
          Bool.and_false, Bool.false_eq_true, if_false, hrec]
      · exact ⟨ta, td, by simp only [reconAux, if_neg hpos, if_neg hneg, hrec]⟩

/-- Every error produced by reconciliation is an `ActiveResourceConflict`
at a key that indeed has a blocked negative delta. -/
theorem reconAux_error_shape (actual desired : CountMap)
    (hasActive : Key → Bool) (force : Bool) (ks : List Key) :
    ∀ e, reconAux actual desired hasActive force ks = Except.error e →
    ∃ k, e = SelvpcError.activeResourceConflict k ∧ k ∈ ks ∧
      delta actual desired k < 0 ∧ hasActive k = true ∧ force = false := by
  induction ks with
  | nil => intro e h; exact absurd h (by simp [reconAux])
  | cons k0 ks ih =>
    intro e h
    simp only [reconAux] at h
    by_cases hpos : 0 < delta actual desired k0
    · rw [if_pos hpos] at h
      cases hrec : reconAux actual desired hasActive force ks with
      | error e' =>
        rw [hrec] at h
        simp only [Except.error.injEq] at h
        obtain ⟨k, hk⟩ := ih e' hrec
        subst h
        exact ⟨k, hk.1, List.mem_cons_of_mem k0 hk.2.1, hk.2.2⟩
      | ok p => obtain ⟨ta, td⟩ := p; rw [hrec] at h; exact absurd h (by simp)
    · rw [if_neg hpos] at h
      by_cases hneg : delta actual desired k0 < 0
      · rw [if_pos hneg] at h
        by_cases hblock : hasActive k0 && !force
        · rw [if_pos hblock] at h
          simp only [Except.error.injEq] at h
          simp only [Bool.and_eq_true, Bool.not_eq_true'] at hblock
          exact ⟨k0, h.symm, List.mem_cons_self k0 ks, hneg,
            hblock.1, hblock.2⟩
        · rw [if_neg hblock] at h
          cases hrec : reconAux actual desired hasActive force ks with
          | error e' =>
            rw [hrec] at h
            simp only [Except.error.injEq] at h
            obtain ⟨k, hk⟩ := ih e' hrec
            subst h
            exact ⟨k, hk.1, List.mem_cons_of_mem k0 hk.2.1, hk.2.2⟩
          | ok p =>
            obtain ⟨ta, td⟩ := p; rw [hrec] at h; exact absurd h (by simp)
      · rw [if_neg hneg] at h
        obtain ⟨k, hk⟩ := ih e h
        exact ⟨k, hk.1, List.mem_cons_of_mem k0 hk.2.1, hk.2.2⟩

/-- Without `force`, a key with a blocked negative delta makes the whole
reconciliation fail. -/
theorem reconAux_conflict_fails (actual desired : CountMap)
    (hasActive : Key → Bool) (ks : List Key) (k : Key) (hk : k ∈ ks)
    (hneg : delta actual desired k < 0) (hact : hasActive k = true) :
    ∃ e, reconAux actual desired hasActive false ks = Except.error e := by
  induction ks with
  | nil => exact absurd hk (List.not_mem_nil k)
  | cons k0 ks ih =>
    by_cases hpos0 : 0 < delta actual desired k0
    · have hk' : k ∈ ks := by
        rcases List.mem_cons.mp hk with h | h
        · subst h; omega
        · exact h
      obtain ⟨e, he⟩ := ih hk'
      refine ⟨e, ?_⟩
      simp only [reconAux, if_pos hpos0, he]
    · by_cases hneg0 : delta actual desired k0 < 0
      · by_cases hact0 : hasActive k0
        · refine ⟨SelvpcError.activeResourceConflict k0, ?_⟩
          simp only [reconAux, if_neg hpos0, if_pos hneg0, hact0,
            Bool.not_false, Bool.and_self, if_true]
        · have hk' : k ∈ ks := by
            rcases List.mem_cons.mp hk with h | h
            · subst h; exact absurd hact hact0
            · exact h
          have hact0' : hasActive k0 = false := by
            cases hh : hasActive k0
            · rfl
            · exact absurd hh hact0
          obtain ⟨e, he⟩ := ih hk'
          refine ⟨e, ?_⟩
          simp only [reconAux, if_neg hpos0, if_pos hneg0, hact0',
            Bool.false_and, Bool.false_eq_true, if_false, he]
      · have hk' : k ∈ ks := by
          rcases List.mem_cons.mp hk with h | h
          · subst h; omega
          · exact h
        obtain ⟨e, he⟩ := ih hk'
        refine ⟨e, ?_⟩
        simp only [reconAux, if_neg hpos0, if_neg hneg0, he]

/-! ## The module: parameters, Gateway oracle, check-mode and real runs -/

/-- A Gateway call issued during a run; used to state "no mutation calls"
properties.  `deleteKey pid k n` abstracts deleting `n` records of kind
`k` (the spec leaves the selection of individual record ids open). -/
inductive GatewayCall where
  | showCall (license_id : String)
  | resolveName (nm : String)
  | listProject (pid : String)
  | create (pid : String) (k : Key) (n : Nat)
  | deleteKey (pid : String) (k : Key) (n : Nat)
  | deleteId (license_id : String)
deriving DecidableEq

/-- Whether a Gateway call mutates provider state. -/
def GatewayCall.isMutation : GatewayCall → Bool
  | .create _ _ _ => true
  | .deleteKey _ _ _ => true
  | .deleteId _ => true
  | _ => false

/-- A resolved project (only its id matters here). -/
structure Project where
  id : String
deriving DecidableEq

/-- The provider client, abstracted as an oracle of pure functions:
`showLicense` is `client.licenses.show`, `projectByName` is the
name-to-project resolution, `listRecords` lists a project's license
records, `deleteLicense` is the single-record delete. -/
structure Client where
  showLicense : String → Except GatewayError LicenseRecord
  projectByName : String → Option Project
  listRecords : String → List LicenseRecord
  deleteLicense : String → Except GatewayError Unit

/-- The module's `state` parameter (argument spec restricts it to these
two choices, default `present`). -/
inductive ModuleState where
  | present
  | absent
deriving DecidableEq

/-- The module parameters (src `main`, argument_spec).  Optional strings
and the license list use `Option`, matching Ansible's `None` defaults. -/
structure Params where
  state : ModuleState
  show_list : Bool
  project_name : Option String
  project_id : Option String
  licenses : Option (List LicenseRequirement)
  license_id : Option String
  detailed : Bool
  force : Bool

/-- Python truthiness of an optional string (None and "" are falsy). -/
def truthyS : Option String → Bool
  | none => false
  | some s => !(s == "")

/-- Python truthiness of an optional list (None and [] are falsy). -/
def truthyL : Option (List LicenseRequirement) → Bool
  | none => false
  | some l => !l.isEmpty

/-- Source `_check_license_exists`: `client.licenses.show(license_id)`
inside `try/except Exception`, any exception meaning "does not exist". -/
def _check_license_exists (c : Client) (license_id : String) : Bool :=
  match c.showLicense license_id with
  | Except.error _ => false
  | Except.ok _ => true

/-- Modelled from the spec: `_check_valid_quantity` lives in
`ansible/module_utils/selvpc_utils/common.py`, not under this source
tree.  Spec §4.1: every LicenseRequirement quantity must be a
non-negative integer.  A missing or empty list is vacuously valid. -/
def _check_valid_quantity : Option (List LicenseRequirement) → Bool
  | none => true
  | some ls => ls.all fun r => 0 ≤ r.quantity

/-- Modelled from the spec: `parse_licenses_to_add` lives in
`ansible/module_utils/selvpc_utils/licenses.py`, not under this source
tree.  It turns the operator's requirement list into the desired
mapping `(region, type) → count`; it runs only after validation, so the
quantities are non-negative. -/
def parse_licenses_to_add (ls : List LicenseRequirement) : CountMap :=
  ls.map fun r => ((r.region, r.ltype), r.quantity.toNat)

/-- The `(region, type)` key of a provisioned record. -/
def recordKey (r : LicenseRecord) : Key := (r.region, r.ltype)

/-- Modelled from the spec: `get_project_licenses_quantity` lives in
`ansible/module_utils/selvpc_utils/licenses.py`, not under this source
tree.  Spec §3 (ActualCount): group the project's LicenseRecords by
`(region, type)` and count them. -/
def get_project_licenses_quantity (records : List LicenseRecord) : CountMap :=
  (records.map recordKey).map fun k =>
    (k, (records.filter fun r => decide (recordKey r = k)).length)

/-- Modelled from the spec: the ACTIVE-status inspection of §4.1 step 3 —
whether any record matching the key has status ACTIVE. -/
def has_active_license (records : List LicenseRecord) (k : Key) : Bool :=
  records.any fun r =>
    decide (recordKey r = k) && decide (r.status = Status.active)

/-- Outcome of a module run: a successful exit carrying `changed`, or a
failure carrying the error. -/
inductive Outcome where
  | exit (changed : Bool)
  | fail (e : SelvpcError)
deriving DecidableEq

/-- Shared tail of the check-mode present branch once a project id is
resolved: list the project's records, parse the requirements, reconcile,
and report whether anything would change (src lines 139–143). -/
def present_state_change_with_pid (p : Params) (c : Client) (pid : String)
    (tr : List GatewayCall) : Except SelvpcError Bool × List GatewayCall :=
  let records := c.listRecords pid
  let parsed := parse_licenses_to_add (p.licenses.getD [])
  let actual := get_project_licenses_quantity records
  match compare_existed_and_needed_objects actual parsed
      (has_active_license records) p.force with
  | Except.error e => (Except.error e, tr ++ [GatewayCall.listProject pid])
  | Except.ok (ta, td) =>
      (Except.ok (!ta.isEmpty || !td.isEmpty),
        tr ++ [GatewayCall.listProject pid])

/-- The check-mode present branch after validation and the
project-and-licenses guard (src lines 134–143): resolve the project by
name when no id is given (an unresolved name yields `False`). -/
def present_state_change (p : Params) (c : Client) :
    Except SelvpcError Bool × List GatewayCall :=
  if truthyS p.project_id then
    present_state_change_with_pid p c (p.project_id.getD "") []
  else
    match c.projectByName (p.project_name.getD "") with
    | none =>
        (Except.ok false, [GatewayCall.resolveName (p.project_name.getD "")])
    | some pr =>
        present_state_change_with_pid p c pr.id
          [GatewayCall.resolveName (p.project_name.getD "")]

/-- Source `_system_state_change` (lines 120–144), with the Gateway calls
it performs recorded in a trace.  An uncaught reconciliation error
propagates as `Except.error`.  The Python is a sequence of `if`s: the
absent branch returns only when `license_id` is truthy, otherwise the
present branch is tried, and the final `return False` catches the
rest. -/
def _system_state_change (p : Params) (c : Client) :
    Except SelvpcError Bool × List GatewayCall :=
  if p.state = ModuleState.absent ∧ truthyS p.license_id = true then
    (Except.ok (_check_license_exists c (p.license_id.getD "")),
      [GatewayCall.showCall (p.license_id.getD "")])
  else if p.state = ModuleState.present then
    if !(_check_valid_quantity p.licenses) then (Except.ok false, [])
    else if (truthyS p.project_name || truthyS p.project_id)
        && truthyL p.licenses then
      present_state_change p c
    else (Except.ok false, [])
  else (Except.ok false, [])

/-- The check-mode run (src line 182–183):
`module.exit_json(changed=_system_state_change(module, client))`. -/
def run_check (p : Params) (c : Client) : Outcome × List GatewayCall :=
  match _system_state_change p c with
  | (Except.ok b, tr) => (Outcome.exit b, tr)
  | (Except.error e, tr) => (Outcome.fail e, tr)

/-- Modelled from the spec: `delete_license` lives in
`ansible/module_utils/selvpc_utils/licenses.py`, not under this source
tree.  Spec §4.2: `deleteLicense` fails with `NotFound` if already
absent and with `ProviderError` on transport failure; on success the
module reports a change. -/
def delete_license (c : Client) (lid : String) : Outcome × List GatewayCall :=
  match c.deleteLicense lid with
  | Except.ok _ => (Outcome.exit true, [GatewayCall.deleteId lid])
  | Except.error e =>
      (Outcome.fail (SelvpcError.gateway e), [GatewayCall.deleteId lid])

/-- Modelled from the spec: `get_licenses` lives in
`ansible/module_utils/selvpc_utils/licenses.py`, not under this source
tree.  A read-only enumeration or lookup; it never changes state. -/
def get_licenses (p : Params) : Outcome × List GatewayCall :=
  if p.show_list then
    (Outcome.exit false, [GatewayCall.listProject (p.project_id.getD "")])
  else (Outcome.exit false, [GatewayCall.showCall (p.license_id.getD "")])

/-- Shared tail of the real present-state path once a project id is
resolved: list, parse, reconcile, then issue the creates and deletes and
report `changed` iff anything was to add or delete. -/
def add_licenses_with_pid (p : Params) (c : Client) (pid : String)
    (tr : List GatewayCall) : Outcome × List GatewayCall :=
  let records := c.listRecords pid
  let parsed := parse_licenses_to_add (p.licenses.getD [])
  let actual := get_project_licenses_quantity records
  match compare_existed_and_needed_objects actual parsed
      (has_active_license records) p.force with
  | Except.error e => (Outcome.fail e, tr ++ [GatewayCall.listProject pid])
  | Except.ok (ta, td) =>
      (Outcome.exit (!ta.isEmpty || !td.isEmpty),
        tr ++ [GatewayCall.listProject pid]
          ++ ta.map (fun kn => GatewayCall.create pid kn.1 kn.2)
          ++ td.map (fun kn => GatewayCall.deleteKey pid kn.1 kn.2))

/-- Modelled from the spec: `add_licenses` lives in
`ansible/module_utils/selvpc_utils/licenses.py`, not under this source
tree.  Spec §4.1 precondition and §7: a negative quantity fails with
`InvalidQuantity` before any Gateway call; an unresolvable project name
fails with `ProjectNotFound`; otherwise reconcile and apply. -/
def add_licenses (p : Params) (c : Client) : Outcome × List GatewayCall :=
  if !(_check_valid_quantity p.licenses) then
    (Outcome.fail SelvpcError.invalidQuantity, [])
  else if truthyS p.project_id then
    add_licenses_with_pid p c (p.project_id.getD "") []
  else
    match c.projectByName (p.project_name.getD "") with
    | none =>
        (Outcome.fail SelvpcError.projectNotFound,
          [GatewayCall.resolveName (p.project_name.getD "")])
    | some pr =>
        add_licenses_with_pid p c pr.id
          [GatewayCall.resolveName (p.project_name.getD "")]

/-- The real (non-check) run: src `main` lines 185–196.  `delete_license`,
`add_licenses` and `get_licenses` exit the module, so the trailing
`module.fail_json(msg="No params for 'licenses' operations.")` is reached
only when no branch fires. -/
def run_real (p : Params) (c : Client) : Outcome × List GatewayCall :=
  if p.state = ModuleState.absent ∧ truthyS p.license_id = true then
    delete_license c (p.license_id.getD "")
  else if p.state = ModuleState.present then
    if truthyL p.licenses && (truthyS p.project_id || truthyS p.project_name)
    then add_licenses p c
    else if (truthyS p.license_id && !p.show_list) || p.show_list then
      get_licenses p
    else (Outcome.fail SelvpcError.missingParameters, [])
  else (Outcome.fail SelvpcError.missingParameters, [])

/-! ## Reconciler properties -/

/-- Conceptually applying a reconciliation result to the actual state:
per key, add the `to_add` count and subtract the `to_delete` count. -/
def applyResult (actual ta td : CountMap) : CountMap :=
  (keys actual ++ keys ta ++ keys td).map fun k =>
    (k, lookupD actual k + lookupD ta k - lookupD td k)

/-- Applying a successful reconciliation result to `actual` yields
exactly the `desired` counts, pointwise. -/
theorem applyResult_lookup_eq_desired (actual desired : CountMap)
    (hasActive : Key → Bool) (force : Bool) (ta td : CountMap)
    (h : compare_existed_and_needed_objects actual desired hasActive force
      = Except.ok (ta, td)) (k : Key) :
    lookupD (applyResult actual ta td) k = lookupD desired k := by
  obtain ⟨hta, htd, hma, hmd⟩ := reconAux_ok_char actual desired hasActive
    force (unionKeys actual desired) ta td h k
  have hδ : delta actual desired k
      = (lookupD desired k : Int) - (lookupD actual k : Int) := rfl
  simp only [applyResult]
  rw [lookupD_map_tabulate]
  by_cases hmem : k ∈ keys actual ++ keys ta ++ keys td
  · rw [if_pos hmem]
    by_cases hU : k ∈ unionKeys actual desired
    · by_cases hpos : 0 < delta actual desired k
      · rw [hta, htd, if_pos ⟨hU, hpos⟩,
          if_neg (fun hc => absurd hc.2 (by omega))]
        omega
      · by_cases hneg : delta actual desired k < 0
        · rw [hta, htd, if_neg (fun hc => absurd hc.2 (by omega)),
            if_pos ⟨hU, hneg⟩]
          omega
        · rw [hta, htd, if_neg (fun hc => absurd hc.2 (by omega)),
            if_neg (fun hc => absurd hc.2 (by omega))]
          omega
    · exfalso
      simp only [List.mem_append] at hmem
      rcases hmem with (hmem | hmem) | hmem
      · exact hU (mem_unionKeys.mpr (Or.inl hmem))
      · exact hU ((hma.mp hmem).1)
      · exact hU ((hmd.mp hmem).1)
  · rw [if_neg hmem]
    simp only [List.mem_append, not_or] at hmem
    have hA : lookupD actual k = 0 := lookupD_eq_zero_of_not_mem hmem.1.1
    by_contra hG
    have hGpos : 0 < lookupD desired k := by omega
    have hkd : k ∈ keys desired := mem_keys_of_lookupD_pos hGpos
    have hU : k ∈ unionKeys actual desired := mem_unionKeys.mpr (Or.inr hkd)
    have hdpos : 0 < delta actual desired k := by omega
    exact hmem.1.2 (hma.mpr ⟨hU, hdpos⟩)

/-- Claim C4: on every successful reconciliation the `to_add` and
`to_delete` maps share no key; a key is in `to_add` exactly when its
delta is strictly positive, in `to_delete` exactly when it is strictly
negative, and in neither when the delta is zero. -/
theorem to_add_to_delete_disjoint (actual desired : CountMap)
    (hasActive : Key → Bool) (force : Bool) (ta td : CountMap)
    (h : compare_existed_and_needed_objects actual desired hasActive force
      = Except.ok (ta, td)) :
    ∀ k, ¬(k ∈ keys ta ∧ k ∈ keys td) ∧
      (k ∈ keys ta ↔
        k ∈ unionKeys actual desired ∧ 0 < delta actual desired k) ∧
      (k ∈ keys td ↔
        k ∈ unionKeys actual desired ∧ delta actual desired k < 0) ∧
      (delta actual desired k = 0 → k ∉ keys ta ∧ k ∉ keys td) := by
  intro k
  obtain ⟨-, -, hma, hmd⟩ := reconAux_ok_char actual desired hasActive force
    (unionKeys actual desired) ta td h k
  refine ⟨?_, hma, hmd, ?_⟩
  · rintro ⟨h1, h2⟩
    have p1 := (hma.mp h1).2
    have p2 := (hmd.mp h2).2
    omega
  · intro hz
    constructor
    · intro hm; have := (hma.mp hm).2; omega
    · intro hm; have := (hmd.mp hm).2; omega

/-- Claim C5: reconciliation is idempotent — re-running it on the same
inputs returns the same `to_add`/`to_delete`, and after conceptually
applying the first result to the actual counts, a second reconciliation
against the same desired counts returns two empty maps (for any record
statuses and force flag). -/
theorem reconcile_idempotent (actual desired : CountMap)
    (hasActive : Key → Bool) (force : Bool) (ta td : CountMap)
    (h : compare_existed_and_needed_objects actual desired hasActive force
      = Except.ok (ta, td)) :
    compare_existed_and_needed_objects actual desired hasActive force
      = Except.ok (ta, td) ∧
    ∀ (hasActive' : Key → Bool) (force' : Bool),
      compare_existed_and_needed_objects (applyResult actual ta td) desired
        hasActive' force' = Except.ok ([], []) := by
  refine ⟨h, fun hasActive' force' => ?_⟩
  apply reconAux_zero
  intro k _
  have := applyResult_lookup_eq_desired actual desired hasActive force
    ta td h k
  simp only [delta]
  omega

/-- Claim C2: without `force`, a key whose delta is negative and which
has a matching ACTIVE record makes the whole reconciliation fail with
`ActiveResourceConflict` naming a key in exactly that situation (so no
`to_delete` is produced at all); when the given key is the only such
key, the error names it. -/
theorem active_conflict_refused (actual desired : CountMap)
    (hasActive : Key → Bool) (k : Key)
    (hneg : delta actual desired k < 0) (hact : hasActive k = true) :
    ∃ k', compare_existed_and_needed_objects actual desired hasActive false
        = Except.error (SelvpcError.activeResourceConflict k') ∧
      delta actual desired k' < 0 ∧ hasActive k' = true ∧
      ((∀ j, delta actual desired j < 0 → hasActive j = true → j = k) →
        k' = k) ∧
      ∀ ta td, compare_existed_and_needed_objects actual desired hasActive
          false ≠ Except.ok (ta, td) := by
  have hApos : 0 < lookupD actual k := by
    simp only [delta] at hneg; omega
  have hkmem : k ∈ unionKeys actual desired :=
    mem_unionKeys.mpr (Or.inl (mem_keys_of_lookupD_pos hApos))
  obtain ⟨e, he⟩ := reconAux_conflict_fails actual desired hasActive
    (unionKeys actual desired) k hkmem hneg hact
  obtain ⟨k', hk'e, -, hk'neg, hk'act, -⟩ :=
    reconAux_error_shape actual desired hasActive false
      (unionKeys actual desired) e he
  subst hk'e
  refine ⟨k', he, hk'neg, hk'act,
    fun huniq => huniq k' hk'neg hk'act, ?_⟩
  intro ta td hok
  rw [show compare_existed_and_needed_objects actual desired hasActive false
      = reconAux actual desired hasActive false (unionKeys actual desired)
    from rfl, he] at hok
  exact absurd hok (by simp)

/-- Claim C7: with `force = true` reconciliation never fails, and a key
with negative delta — ACTIVE records notwithstanding — gets the full
delta magnitude recorded under `to_delete`; in particular the spec's
example `actual = {(ru-1,office): 2}`, `desired = {(ru-1,office): 0}`
with all records ACTIVE and `force = true` yields
`to_delete = {(ru-1,office): 2}` and no error. -/
theorem force_overrides_active (actual desired : CountMap)
    (hasActive : Key → Bool) (k : Key)
    (hneg : delta actual desired k < 0) (_hact : hasActive k = true) :
    (∃ ta td, compare_existed_and_needed_objects actual desired hasActive
        true = Except.ok (ta, td) ∧
      lookupD td k = (-(delta actual desired k)).toNat ∧
      0 < lookupD td k) ∧
    compare_existed_and_needed_objects
        [(("ru-1", "office"), 2)] [(("ru-1", "office"), 0)]
        (fun _ => true) true
      = Except.ok ([], [(("ru-1", "office"), 2)]) := by
  constructor
  · have hApos : 0 < lookupD actual k := by
      simp only [delta] at hneg; omega
    have hkmem : k ∈ unionKeys actual desired :=
      mem_unionKeys.mpr (Or.inl (mem_keys_of_lookupD_pos hApos))
    obtain ⟨ta, td, hok⟩ := reconAux_force_ok actual desired hasActive
      (unionKeys actual desired)
    obtain ⟨-, htd, -, -⟩ := reconAux_ok_char actual desired hasActive true
      (unionKeys actual desired) ta td hok k
    refine ⟨ta, td, hok, ?_, ?_⟩
    · rw [htd, if_pos ⟨hkmem, hneg⟩]
    · rw [htd, if_pos ⟨hkmem, hneg⟩]; omega
  · decide

/-! ## Run-level helper lemmas -/

theorem run_check_fst (p : Params) (c : Client) :
    (run_check p c).1 = (match (_system_state_change p c).1 with
      | Except.ok b => Outcome.exit b
      | Except.error e => Outcome.fail e) := by
  unfold run_check
  rcases h : _system_state_change p c with ⟨r, tr⟩
  cases r <;> rfl

theorem run_check_snd (p : Params) (c : Client) :
    (run_check p c).2 = (_system_state_change p c).2 := by
  unfold run_check
  rcases h : _system_state_change p c with ⟨r, tr⟩
  cases r <;> rfl

theorem present_with_pid_fst (p : Params) (c : Client) (pid : String)
    (tr : List GatewayCall) :
    (present_state_change_with_pid p c pid tr).1 =
      (match compare_existed_and_needed_objects
          (get_project_licenses_quantity (c.listRecords pid))
          (parse_licenses_to_add (p.licenses.getD []))
          (has_active_license (c.listRecords pid)) p.force with
        | Except.error e => Except.error e
        | Except.ok (ta, td) => Except.ok (!ta.isEmpty || !td.isEmpty)) := by
  unfold present_state_change_with_pid
  cases h : compare_existed_and_needed_objects
      (get_project_licenses_quantity (c.listRecords pid))
      (parse_licenses_to_add (p.licenses.getD []))
      (has_active_license (c.listRecords pid)) p.force with
  | error e => simp [h]
  | ok q => obtain ⟨ta, td⟩ := q; simp [h]

theorem present_with_pid_snd (p : Params) (c : Client) (pid : String)
    (tr : List GatewayCall) :
    (present_state_change_with_pid p c pid tr).2 =
      tr ++ [GatewayCall.listProject pid] := by
  unfold present_state_change_with_pid
  cases h : compare_existed_and_needed_objects
      (get_project_licenses_quantity (c.listRecords pid))
      (parse_licenses_to_add (p.licenses.getD []))
      (has_active_license (c.listRecords pid)) p.force with
  | error e => simp [h]
  | ok q => obtain ⟨ta, td⟩ := q; simp [h]

theorem add_with_pid_fst (p : Params) (c : Client) (pid : String)
    (tr : List GatewayCall) :
    (add_licenses_with_pid p c pid tr).1 =
      (match compare_existed_and_needed_objects
          (get_project_licenses_quantity (c.listRecords pid))
          (parse_licenses_to_add (p.licenses.getD []))
          (has_active_license (c.listRecords pid)) p.force with
        | Except.error e => Outcome.fail e
        | Except.ok (ta, td) => Outcome.exit (!ta.isEmpty || !td.isEmpty)) := by
  unfold add_licenses_with_pid
  cases h : compare_existed_and_needed_objects
      (get_project_licenses_quantity (c.listRecords pid))
      (parse_licenses_to_add (p.licenses.getD []))
      (has_active_license (c.listRecords pid)) p.force with
  | error e => simp [h]
  | ok q => obtain ⟨ta, td⟩ := q; simp [h]

theorem present_state_change_fst (p : Params) (c : Client) :
    (present_state_change p c).1 =
      if truthyS p.project_id then
        (present_state_change_with_pid p c (p.project_id.getD "") []).1
      else
        (match c.projectByName (p.project_name.getD "") with
          | none => Except.ok false
          | some pr =>
              (present_state_change_with_pid p c pr.id
                [GatewayCall.resolveName (p.project_name.getD "")]).1) := by
  unfold present_state_change
  split
  · rfl
  · cases c.projectByName (p.project_name.getD "") <;> rfl

theorem ssc_present_fst (p : Params) (c : Client)
    (h : p.state = ModuleState.present) :
    (_system_state_change p c).1 =
      if !(_check_valid_quantity p.licenses) then Except.ok false
      else if (truthyS p.project_name || truthyS p.project_id)
          && truthyL p.licenses then
        (present_state_change p c).1
      else Except.ok false := by
  unfold _system_state_change
  rw [if_neg fun hc => by rw [h] at hc; exact absurd hc.1 (by simp),
    if_pos h]
  split
  · rfl
  · split <;> rfl

theorem ssc_absent_fst (p : Params) (c : Client)
    (h : p.state = ModuleState.absent) :
    (_system_state_change p c).1 =
      Except.ok (if truthyS p.license_id = true then
        _check_license_exists c (p.license_id.getD "") else false) := by
  unfold _system_state_change
  by_cases hl : truthyS p.license_id = true
  · rw [if_pos ⟨h, hl⟩, if_pos hl]
  · rw [if_neg fun hc => hl hc.2,
      if_neg fun hc => by rw [h] at hc; exact absurd hc (by simp),
      if_neg hl]

/-- Every Gateway call recorded by the check-mode state computation is a
read (show, resolve or list) — never a create or delete. -/
theorem ssc_trace_reads (p : Params) (c : Client) :
    ∀ g ∈ (_system_state_change p c).2, g.isMutation = false := by
  intro g hg
  unfold _system_state_change at hg
  split at hg
  · simp at hg
    subst hg
    rfl
  · split at hg
    · split at hg
      · simp at hg
      · split at hg
        · unfold present_state_change at hg
          split at hg
          · rw [present_with_pid_snd] at hg
            simp at hg
            subst hg
            rfl
          · cases hpr : c.projectByName (p.project_name.getD "") with
            | none =>
              rw [hpr] at hg
              simp at hg
              subst hg
              rfl
            | some pr =>
              rw [hpr] at hg
              rw [present_with_pid_snd] at hg
              simp at hg
              rcases hg with hg | hg <;> subst hg <;> rfl
        · simp at hg
    · simp at hg

theorem bool_eq_false {b : Bool} (h : ¬ b = true) : b = false := by
  cases b
  · rfl
  · exact absurd rfl h

theorem run_real_present (p : Params) (c : Client)
    (h : p.state = ModuleState.present) :
    run_real p c =
      if truthyL p.licenses && (truthyS p.project_id || truthyS p.project_name)
      then add_licenses p c
      else if (truthyS p.license_id && !p.show_list) || p.show_list then
        get_licenses p
      else (Outcome.fail SelvpcError.missingParameters, []) := by
  unfold run_real
  rw [if_neg fun hc => by rw [h] at hc; exact absurd hc.1 (by simp),
    if_pos h]

theorem get_licenses_fst (p : Params) :
    (get_licenses p).1 = Outcome.exit false := by
  unfold get_licenses
  split <;> rfl

theorem delete_license_fst_ne_missing (c : Client) (lid : String) :
    (delete_license c lid).1 ≠ Outcome.fail SelvpcError.missingParameters := by
  unfold delete_license
  cases c.deleteLicense lid <;> simp

/-- The real and the check-mode computations run the same reconciliation
once a project id is fixed, so their outcomes agree. -/
theorem with_pid_parallel (p : Params) (c : Client) (pid : String)
    (tr tr' : List GatewayCall) :
    (∃ b, (add_licenses_with_pid p c pid tr).1 = Outcome.exit b ∧
      (present_state_change_with_pid p c pid tr').1 = Except.ok b) ∨
    (∃ k, (add_licenses_with_pid p c pid tr).1
        = Outcome.fail (SelvpcError.activeResourceConflict k) ∧
      (present_state_change_with_pid p c pid tr').1
        = Except.error (SelvpcError.activeResourceConflict k)) := by
  rw [add_with_pid_fst, present_with_pid_fst]
  cases h : compare_existed_and_needed_objects
      (get_project_licenses_quantity (c.listRecords pid))
      (parse_licenses_to_add (p.licenses.getD []))
      (has_active_license (c.listRecords pid)) p.force with
  | error e =>
    obtain ⟨k, hk, -, -, -, -⟩ := reconAux_error_shape
      (get_project_licenses_quantity (c.listRecords pid))
      (parse_licenses_to_add (p.licenses.getD []))
      (has_active_license (c.listRecords pid)) p.force
      (unionKeys (get_project_licenses_quantity (c.listRecords pid))
        (parse_licenses_to_add (p.licenses.getD []))) e h
    subst hk
    right
    exact ⟨k, rfl, rfl⟩
  | ok q =>
    obtain ⟨ta, td⟩ := q
    left
    exact ⟨_, rfl, rfl⟩

theorem add_licenses_fst_ne_missing (p : Params) (c : Client) :
    (add_licenses p c).1 ≠ Outcome.fail SelvpcError.missingParameters := by
  unfold add_licenses
  split
  · simp
  · split
    · rw [add_with_pid_fst]
      cases h : compare_existed_and_needed_objects
          (get_project_licenses_quantity
            (c.listRecords (p.project_id.getD "")))
          (parse_licenses_to_add (p.licenses.getD []))
          (has_active_license (c.listRecords (p.project_id.getD "")))
          p.force with
      | error e =>
        obtain ⟨k, hk, -, -, -, -⟩ := reconAux_error_shape
          (get_project_licenses_quantity
            (c.listRecords (p.project_id.getD "")))
          (parse_licenses_to_add (p.licenses.getD []))
          (has_active_license (c.listRecords (p.project_id.getD "")))
          p.force
          (unionKeys
            (get_project_licenses_quantity
              (c.listRecords (p.project_id.getD "")))
            (parse_licenses_to_add (p.licenses.getD []))) e h
        subst hk
        simp
      | ok q => obtain ⟨ta, td⟩ := q; simp
    · cases hpr : c.projectByName (p.project_name.getD "") with
      | none => simp
      | some pr =>
        rw [add_with_pid_fst]
        cases h : compare_existed_and_needed_objects
            (get_project_licenses_quantity (c.listRecords pr.id))
            (parse_licenses_to_add (p.licenses.getD []))
            (has_active_license (c.listRecords pr.id)) p.force with
        | error e =>
          obtain ⟨k, hk, -, -, -, -⟩ := reconAux_error_shape
            (get_project_licenses_quantity (c.listRecords pr.id))
            (parse_licenses_to_add (p.licenses.getD []))
            (has_active_license (c.listRecords pr.id)) p.force
            (unionKeys
              (get_project_licenses_quantity (c.listRecords pr.id))
              (parse_licenses_to_add (p.licenses.getD []))) e h
          subst hk
          simp
        | ok q => obtain ⟨ta, td⟩ := q; simp

/-- For present-state inputs the real-run and check-mode outcomes pair up
in one of five ways: equal successes, equal conflict failures, or a real
failure (invalid quantity, unresolved project, missing parameters) that
check mode reports as `changed = false`. -/
theorem present_outcomes (p : Params) (c : Client)
    (h : p.state = ModuleState.present) :
    (∃ b, (run_real p c).1 = Outcome.exit b ∧
      (run_check p c).1 = Outcome.exit b) ∨
    (∃ k, (run_real p c).1
        = Outcome.fail (SelvpcError.activeResourceConflict k) ∧
      (run_check p c).1
        = Outcome.fail (SelvpcError.activeResourceConflict k)) ∨
    ((run_real p c).1 = Outcome.fail SelvpcError.invalidQuantity ∧
      (run_check p c).1 = Outcome.exit false) ∨
    ((run_real p c).1 = Outcome.fail SelvpcError.projectNotFound ∧
      (run_check p c).1 = Outcome.exit false) ∨
    ((run_real p c).1 = Outcome.fail SelvpcError.missingParameters ∧
      (run_check p c).1 = Outcome.exit false) := by
  rw [run_real_present p c h]
  by_cases hg : (truthyL p.licenses
      && (truthyS p.project_id || truthyS p.project_name)) = true
  · rw [if_pos hg]
    have hg' : ((truthyS p.project_name || truthyS p.project_id)
        && truthyL p.licenses) = true := by
      cases hL : truthyL p.licenses <;> cases hI : truthyS p.project_id <;>
        cases hN : truthyS p.project_name <;> simp_all
    by_cases hv : _check_valid_quantity p.licenses = true
    · have hcheck : (run_check p c).1 =
          (match (present_state_change p c).1 with
            | Except.ok b => Outcome.exit b
            | Except.error e => Outcome.fail e) := by
        rw [run_check_fst, ssc_present_fst p c h,
          if_neg (by rw [hv]; simp), if_pos hg']
      unfold add_licenses
      rw [if_neg (by rw [hv]; simp)]
      rw [present_state_change_fst] at hcheck
      by_cases hpid : truthyS p.project_id = true
      · rw [if_pos hpid]
        rw [if_pos hpid] at hcheck
        rcases with_pid_parallel p c (p.project_id.getD "") [] []
          with ⟨b, h1, h2⟩ | ⟨k, h1, h2⟩
        · left; exact ⟨b, h1, by rw [hcheck, h2]⟩
        · right; left; exact ⟨k, h1, by rw [hcheck, h2]⟩
      · rw [if_neg hpid]
        rw [if_neg hpid] at hcheck
        cases hpr : c.projectByName (p.project_name.getD "") with
        | none =>
          rw [hpr] at hcheck
          have hcheck' : (run_check p c).1 = Outcome.exit false := hcheck
          right; right; right; left
          exact ⟨rfl, hcheck'⟩
        | some pr =>
          rw [hpr] at hcheck
          have hcheck' : (run_check p c).1 =
              (match (present_state_change_with_pid p c pr.id
                  [GatewayCall.resolveName (p.project_name.getD "")]).1 with
                | Except.ok b => Outcome.exit b
                | Except.error e => Outcome.fail e) := hcheck
          rcases with_pid_parallel p c pr.id
              [GatewayCall.resolveName (p.project_name.getD "")]
              [GatewayCall.resolveName (p.project_name.getD "")]
            with ⟨b, h1, h2⟩ | ⟨k, h1, h2⟩
          · left; exact ⟨b, h1, by rw [hcheck', h2]⟩
          · right; left; exact ⟨k, h1, by rw [hcheck', h2]⟩
    · have hv' : _check_valid_quantity p.licenses = false := bool_eq_false hv
      right; right; left
      constructor
      · unfold add_licenses
        rw [if_pos (by rw [hv']; rfl)]
      · rw [run_check_fst, ssc_present_fst p c h,
          if_pos (by rw [hv']; rfl)]
  · rw [if_neg hg]
    have hg' : ((truthyS p.project_name || truthyS p.project_id)
        && truthyL p.licenses) = false := by
      cases hL : truthyL p.licenses <;> cases hI : truthyS p.project_id <;>
        cases hN : truthyS p.project_name <;> simp_all
    have hcheck : (run_check p c).1 = Outcome.exit false := by
      rw [run_check_fst, ssc_present_fst p c h, hg']
      by_cases hv : _check_valid_quantity p.licenses = true
      · rw [if_neg (by rw [hv]; simp), if_neg (by simp)]
      · rw [if_pos (by rw [bool_eq_false hv]; rfl)]
    by_cases hq : ((truthyS p.license_id && !p.show_list)
        || p.show_list) = true
    · rw [if_pos hq]
      left
      exact ⟨false, get_licenses_fst p, hcheck⟩
    · rw [if_neg hq]
      right; right; right; right
      exact ⟨rfl, hcheck⟩

/-! ## Module-level claims -/

/-- Claim C1 (amended): check-only mode performs no Gateway mutation
calls (no create or delete) on any input; on `state = present` inputs
its reported outcome tracks the real run — the same `changed` whenever
the real run exits with a `changed` value, the same
`ActiveResourceConflict` failure when reconciliation refuses, and
`changed = false` where the real run fails with `InvalidQuantity`,
`ProjectNotFound` or `MissingParameters` (so on inputs where the real
run fails, check mode does not report the `changed` a real run would). -/
theorem check_mode_no_mutation_refines_real (p : Params) (c : Client) :
    (∀ g ∈ (run_check p c).2, g.isMutation = false) ∧
    (p.state = ModuleState.present →
      (∀ b, (run_real p c).1 = Outcome.exit b →
        (run_check p c).1 = Outcome.exit b) ∧
      (∀ k, (run_real p c).1
          = Outcome.fail (SelvpcError.activeResourceConflict k) →
        (run_check p c).1
          = Outcome.fail (SelvpcError.activeResourceConflict k)) ∧
      ((run_real p c).1 = Outcome.fail SelvpcError.invalidQuantity →
        (run_check p c).1 = Outcome.exit false) ∧
      ((run_real p c).1 = Outcome.fail SelvpcError.projectNotFound →
        (run_check p c).1 = Outcome.exit false) ∧
      ((run_real p c).1 = Outcome.fail SelvpcError.missingParameters →
        (run_check p c).1 = Outcome.exit false)) := by
  constructor
  · intro g hg
    rw [run_check_snd] at hg
    exact ssc_trace_reads p c g hg
  · intro h
    rcases present_outcomes p c h with
      ⟨b, h1, h2⟩ | ⟨k, h1, h2⟩ | ⟨h1, h2⟩ | ⟨h1, h2⟩ | ⟨h1, h2⟩
    · refine ⟨?_, ?_, ?_, ?_, ?_⟩
      · intro b' hb'
        rw [h1] at hb'
        injection hb' with hbb
        rw [← hbb]
        exact h2
      · intro k hk; rw [h1] at hk; exact absurd hk (by simp)
      · intro hx; rw [h1] at hx; exact absurd hx (by simp)
      · intro hx; rw [h1] at hx; exact absurd hx (by simp)
      · intro hx; rw [h1] at hx; exact absurd hx (by simp)
    · refine ⟨?_, ?_, ?_, ?_, ?_⟩
      · intro b' hb'; rw [h1] at hb'; exact absurd hb' (by simp)
      · intro k' hk'
        rw [h1] at hk'
        injection hk' with he
        injection he with hke
        rw [← hke]
        exact h2
      · intro hx; rw [h1] at hx
        exact absurd hx (by simp)
      · intro hx; rw [h1] at hx
        exact absurd hx (by simp)
      · intro hx; rw [h1] at hx
        exact absurd hx (by simp)
    · refine ⟨?_, ?_, fun _ => h2, ?_, ?_⟩
      · intro b' hb'; rw [h1] at hb'; exact absurd hb' (by simp)
      · intro k hk; rw [h1] at hk
        exact absurd hk (by simp)
      · intro hx; rw [h1] at hx
        exact absurd hx (by simp)
      · intro hx; rw [h1] at hx
        exact absurd hx (by simp)
    · refine ⟨?_, ?_, ?_, fun _ => h2, ?_⟩
      · intro b' hb'; rw [h1] at hb'; exact absurd hb' (by simp)
      · intro k hk; rw [h1] at hk
        exact absurd hk (by simp)
      · intro hx; rw [h1] at hx
        exact absurd hx (by simp)
      · intro hx; rw [h1] at hx
        exact absurd hx (by simp)
    · refine ⟨?_, ?_, ?_, ?_, fun _ => h2⟩
      · intro b' hb'; rw [h1] at hb'; exact absurd hb' (by simp)
      · intro k hk; rw [h1] at hk
        exact absurd hk (by simp)
      · intro hx; rw [h1] at hx
        exact absurd hx (by simp)
      · intro hx; rw [h1] at hx
        exact absurd hx (by simp)

/-- Claim C3 (amended): with a license list and a project reference
supplied, a negative quantity makes the real run fail with
`InvalidQuantity` before any Gateway call; the check-mode run on the
same input does not fail — it exits successfully with `changed = false`
(and also makes no Gateway call). -/
theorem negative_quantity_outcomes (p : Params) (c : Client)
    (hstate : p.state = ModuleState.present)
    (hlic : truthyL p.licenses = true)
    (hproj : (truthyS p.project_id || truthyS p.project_name) = true)
    (hneg : ∃ r ∈ p.licenses.getD [], r.quantity < 0) :
    run_real p c = (Outcome.fail SelvpcError.invalidQuantity, []) ∧
    run_check p c = (Outcome.exit false, []) := by
  have hv : _check_valid_quantity p.licenses = false := by
    obtain ⟨r, hr, hrneg⟩ := hneg
    cases hl : p.licenses with
    | none => rw [hl] at hr; simp at hr
    | some l =>
      rw [hl] at hr
      simp only [Option.getD_some] at hr
      simp only [_check_valid_quantity, List.all_eq_false]
      refine ⟨r, hr, ?_⟩
      simp only [decide_eq_true_eq]
      omega
  constructor
  · rw [run_real_present p c hstate, if_pos (by rw [hlic, hproj]; rfl)]
    unfold add_licenses
    rw [if_pos (by rw [hv]; rfl)]
  · have hs : _system_state_change p c = (Except.ok false, []) := by
      unfold _system_state_change
      rw [if_neg fun hc => by rw [hstate] at hc; exact absurd hc.1 (by simp),
        if_pos hstate, if_pos (by rw [hv]; rfl)]
    unfold run_check
    rw [hs]

/-- Claim C6: when the actual counts equal the desired counts on every
key the reconciliation returns two empty maps; and a present-state
check-mode run whose listed records group to exactly the parsed desired
counts reports `changed = false`. -/
theorem equal_state_reports_unchanged :
    (∀ (actual desired : CountMap) (hasActive : Key → Bool) (force : Bool),
      (∀ k, lookupD actual k = lookupD desired k) →
      compare_existed_and_needed_objects actual desired hasActive force
        = Except.ok ([], [])) ∧
    (∀ (p : Params) (c : Client) (pid : String),
      p.state = ModuleState.present → p.project_id = some pid → pid ≠ "" →
      (∀ k, lookupD (get_project_licenses_quantity (c.listRecords pid)) k
        = lookupD (parse_licenses_to_add (p.licenses.getD [])) k) →
      (run_check p c).1 = Outcome.exit false) := by
  have part1 : ∀ (actual desired : CountMap) (hasActive : Key → Bool)
      (force : Bool),
      (∀ k, lookupD actual k = lookupD desired k) →
      compare_existed_and_needed_objects actual desired hasActive force
        = Except.ok ([], []) := by
    intro actual desired ha f hagree
    apply reconAux_zero
    intro k _
    simp only [delta, hagree k]
    omega
  refine ⟨part1, ?_⟩
  intro p c pid hstate hpid hne hagree
  rw [run_check_fst, ssc_present_fst p c hstate]
  by_cases hv : _check_valid_quantity p.licenses = true
  · rw [if_neg (by rw [hv]; simp)]
    have htr : truthyS p.project_id = true := by
      rw [hpid]; simp [truthyS, hne]
    by_cases hgd : ((truthyS p.project_name || truthyS p.project_id)
        && truthyL p.licenses) = true
    · rw [if_pos hgd, present_state_change_fst, if_pos htr]
      have hpd : p.project_id.getD "" = pid := by rw [hpid]; rfl
      rw [hpd, present_with_pid_fst,
        part1 _ _ _ _ hagree]
      rfl
    · rw [if_neg hgd]
  · rw [if_pos (by rw [bool_eq_false hv]; rfl)]

/-- Claim C8 (amended): the real run fails with `MissingParameters` iff
either state is 'absent' and no truthy `license_id` was given (the list
flag and the license list are ignored under 'absent'), or state is
'present' and none of a license list with a project reference, a truthy
`license_id`, or the list flag was given; and in that case it performs
no Gateway calls before failing. -/
theorem missing_parameters_iff (p : Params) (c : Client) :
    ((run_real p c).1 = Outcome.fail SelvpcError.missingParameters ↔
      (p.state = ModuleState.absent ∧ truthyS p.license_id = false) ∨
      (p.state = ModuleState.present ∧
        (truthyL p.licenses
          && (truthyS p.project_id || truthyS p.project_name)) = false ∧
        truthyS p.license_id = false ∧ p.show_list = false)) ∧
    ((run_real p c).1 = Outcome.fail SelvpcError.missingParameters →
      (run_real p c).2 = []) := by
  unfold run_real
  split
  case isTrue hc =>
    have hne := delete_license_fst_ne_missing c (p.license_id.getD "")
    refine ⟨⟨fun hd => absurd hd hne, ?_⟩, fun hd => absurd hd hne⟩
    rintro (⟨-, hfl⟩ | ⟨hp, -⟩)
    · rw [hc.2] at hfl; cases hfl
    · rw [hc.1] at hp; exact absurd hp (by simp)
  case isFalse hc =>
    split
    case isTrue hpres =>
      split
      case isTrue hg =>
        have hne := add_licenses_fst_ne_missing p c
        refine ⟨⟨fun hd => absurd hd hne, ?_⟩, fun hd => absurd hd hne⟩
        rintro (⟨hp, -⟩ | ⟨-, hgf, -⟩)
        · rw [hpres] at hp; exact absurd hp (by simp)
        · rw [hg] at hgf; cases hgf
      case isFalse hg =>
        split
        case isTrue hq =>
          rw [get_licenses_fst]
          refine ⟨⟨fun hd => absurd hd (by simp), ?_⟩,
            fun hd => absurd hd (by simp)⟩
          rintro (⟨hp, -⟩ | ⟨-, -, hlid, hsl⟩)
          · rw [hpres] at hp; exact absurd hp (by simp)
          · rw [hlid, hsl] at hq; simp at hq
        case isFalse hq =>
          have hq' : ((truthyS p.license_id && !p.show_list)
              || p.show_list) = false := bool_eq_false hq
          have hsl : p.show_list = false := by
            cases hs : p.show_list
            · rfl
            · rw [hs] at hq'; simp at hq'
          have htl : truthyS p.license_id = false := by
            rw [hsl] at hq'
            simpa using hq'
          exact ⟨⟨fun _ => Or.inr ⟨hpres, bool_eq_false hg, htl, hsl⟩,
            fun _ => rfl⟩, fun _ => rfl⟩
    case isFalse hpres =>
      have habs : p.state = ModuleState.absent := by
        cases hst : p.state with
        | present => exact absurd hst hpres
        | absent => rfl
      have htl : truthyS p.license_id = false := by
        apply bool_eq_false
        intro ht
        exact hc ⟨habs, ht⟩
      exact ⟨⟨fun _ => Or.inl ⟨habs, htl⟩, fun _ => rfl⟩, fun _ => rfl⟩

/-- Claim C9 (amended): in check mode, invalid (negative) quantities, an
unresolvable project name, a missing license_id under 'absent', and
missing parameters are all swallowed — the module exits successfully
with `changed = false` — but an `ActiveResourceConflict` raised by the
reconciliation propagates as a failure even in check mode. -/
theorem check_mode_swallows_input_errors (p : Params) (c : Client) :
    (p.state = ModuleState.present →
      _check_valid_quantity p.licenses = false →
      (run_check p c).1 = Outcome.exit false) ∧
    (p.state = ModuleState.present → truthyS p.project_id = false →
      c.projectByName (p.project_name.getD "") = none →
      (run_check p c).1 = Outcome.exit false) ∧
    (p.state = ModuleState.absent → truthyS p.license_id = false →
      (run_check p c).1 = Outcome.exit false) ∧
    (p.state = ModuleState.present →
      ((truthyS p.project_name || truthyS p.project_id)
        && truthyL p.licenses) = false →
      (run_check p c).1 = Outcome.exit false) ∧
    (∀ pid e, p.state = ModuleState.present → p.project_id = some pid →
      pid ≠ "" → _check_valid_quantity p.licenses = true →
      truthyL p.licenses = true →
      compare_existed_and_needed_objects
          (get_project_licenses_quantity (c.listRecords pid))
          (parse_licenses_to_add (p.licenses.getD []))
          (has_active_license (c.listRecords pid)) p.force
        = Except.error e →
      (run_check p c).1 = Outcome.fail e) := by
  refine ⟨?_, ?_, ?_, ?_, ?_⟩
  · intro h hv
    rw [run_check_fst, ssc_present_fst p c h, if_pos (by rw [hv]; rfl)]
  · intro h hpidf hres
    rw [run_check_fst, ssc_present_fst p c h]
    by_cases hv : _check_valid_quantity p.licenses = true
    · rw [if_neg (by rw [hv]; simp)]
      by_cases hgd : ((truthyS p.project_name || truthyS p.project_id)
          && truthyL p.licenses) = true
      · rw [if_pos hgd, present_state_change_fst,
          if_neg (by rw [hpidf]; simp), hres]
      · rw [if_neg hgd]
    · rw [if_pos (by rw [bool_eq_false hv]; rfl)]
  · intro h hlf
    rw [run_check_fst, ssc_absent_fst p c h,
      if_neg (by rw [hlf]; simp)]
  · intro h hg
    rw [run_check_fst, ssc_present_fst p c h]
    by_cases hv : _check_valid_quantity p.licenses = true
    · rw [if_neg (by rw [hv]; simp), if_neg (by rw [hg]; simp)]
    · rw [if_pos (by rw [bool_eq_false hv]; rfl)]
  · intro pid e h hpid hne hv hL hcomp
    have htI : truthyS p.project_id = true := by
      rw [hpid]; simp [truthyS, hne]
    have hgd : ((truthyS p.project_name || truthyS p.project_id)
        && truthyL p.licenses) = true := by
      rw [htI, hL]; simp
    have hpd : p.project_id.getD "" = pid := by rw [hpid]; rfl
    rw [run_check_fst, ssc_present_fst p c h,
      if_neg (by rw [hv]; simp), if_pos hgd, present_state_change_fst,
      if_pos htI, hpd, present_with_pid_fst, hcomp]

/-- Claim C10: in check mode with state 'absent' and a (truthy)
license_id supplied, `changed` is true iff the Gateway's show call for
that id returns without raising; every exception from the show call —
`notFound` and `providerError` alike — yields `changed = false`. -/
theorem check_absent_changed_iff_show_ok (p : Params) (c : Client)
    (lid : String) (hstate : p.state = ModuleState.absent)
    (hlid : p.license_id = some lid) (hne : lid ≠ "") :
    ((run_check p c).1 = Outcome.exit true ↔
      ∃ r, c.showLicense lid = Except.ok r) ∧
    (∀ e, c.showLicense lid = Except.error e →
      (run_check p c).1 = Outcome.exit false) := by
  have htl : truthyS p.license_id = true := by
    rw [hlid]; simp [truthyS, hne]
  have hgd : p.license_id.getD "" = lid := by rw [hlid]; rfl
  have hfst : (run_check p c).1
      = Outcome.exit (_check_license_exists c lid) := by
    rw [run_check_fst, ssc_absent_fst p c hstate, if_pos htl, hgd]
  constructor
  · constructor
    · intro hx
      rw [hfst] at hx
      injection hx with hb
      unfold _check_license_exists at hb
      cases hs : c.showLicense lid with
      | error e => rw [hs] at hb; cases hb
      | ok r => exact ⟨r, rfl⟩
    · rintro ⟨r, hr⟩
      rw [hfst]
      unfold _check_license_exists
      rw [hr]
  · intro e he
    rw [hfst]
    unfold _check_license_exists
    rw [he]

/-! ## Concrete sample inputs, counterexamples and witnesses -/

/-- An ACTIVE license record in region ru-1 of type "office". -/
def sampleRecord : LicenseRecord :=
  { id := "L1", region := "ru-1", ltype := "office",
    status := Status.active, project_id := "p1" }

/-- A provider on which every read fails / resolves nothing. -/
def clientEmpty : Client :=
  { showLicense := fun _ => Except.error GatewayError.notFound
    projectByName := fun _ => none
    listRecords := fun _ => []
    deleteLicense := fun _ => Except.error GatewayError.notFound }

/-- A provider holding exactly one ACTIVE record. -/
def clientOneActive : Client :=
  { showLicense := fun _ => Except.ok sampleRecord
    projectByName := fun _ => some { id := "p1" }
    listRecords := fun _ => [sampleRecord]
    deleteLicense := fun _ => Except.ok () }

/-- Present-state parameters with a negative quantity. -/
def paramsNegQty : Params :=
  { state := ModuleState.present, show_list := false, project_name := none,
    project_id := some "p1",
    licenses := some [{ region := "ru-1", ltype := "office", quantity := -1 }],
    license_id := none, detailed := false, force := false }

/-- Present-state parameters asking for 0 of a kind with ACTIVE records,
without force. -/
def paramsConflict : Params :=
  { state := ModuleState.present, show_list := false, project_name := none,
    project_id := some "p1",
    licenses := some [{ region := "ru-1", ltype := "office", quantity := 0 }],
    license_id := none, detailed := false, force := false }

/-- Absent-state parameters carrying only the list flag. -/
def paramsAbsentList : Params :=
  { state := ModuleState.absent, show_list := true, project_name := none,
    project_id := none, licenses := none, license_id := none,
    detailed := false, force := false }

/-- Absent-state parameters with a license id. -/
def paramsAbsentId : Params :=
  { state := ModuleState.absent, show_list := false, project_name := none,
    project_id := none, licenses := none, license_id := some "L1",
    detailed := false, force := false }

/-- Present-state parameters with only an unresolvable project name. -/
def paramsNameOnly : Params :=
  { state := ModuleState.present, show_list := false,
    project_name := some "missing", project_id := none,
    licenses := some [{ region := "ru-1", ltype := "office", quantity := 1 }],
    license_id := none, detailed := false, force := false }

def actualSample : CountMap := [(("ru-1", "office"), 2)]

def desiredSample : CountMap :=
  [(("ru-1", "office"), 2), (("ru-2", "office"), 1)]

def toAddSample : CountMap := [(("ru-2", "office"), 1)]

/-- Claim C1 counterexample: on a negative-quantity input the check-mode
run reports `changed = false` while the real run reports no `changed` at
all — it fails with `InvalidQuantity` — so the reported `changed` values
are not equal. -/
theorem check_vs_real_changed_mismatch :
    (run_check paramsNegQty clientEmpty).1 = Outcome.exit false ∧
    (run_real paramsNegQty clientEmpty).1
      = Outcome.fail SelvpcError.invalidQuantity := by decide

/-- Claim C1 witness. -/
theorem check_mode_no_mutation_refines_real_witness :
    (run_check paramsNegQty clientEmpty).1 = Outcome.exit false :=
  ((check_mode_no_mutation_refines_real paramsNegQty clientEmpty).2
    rfl).2.2.1 (by decide)

/-- Claim C2 witness: the spec's example — two ACTIVE records, desired
zero, no force — is refused naming the key. -/
theorem active_conflict_refused_witness :
    compare_existed_and_needed_objects [(("ru-1", "office"), 2)]
      [(("ru-1", "office"), 0)] (fun _ => true) false
      = Except.error (SelvpcError.activeResourceConflict ("ru-1", "office")) := by
  obtain ⟨k', hk', hneg', hact', huniq, -⟩ :=
    active_conflict_refused [(("ru-1", "office"), 2)]
      [(("ru-1", "office"), 0)] (fun _ => true) ("ru-1", "office")
      (by decide) rfl
  have hkk : k' = ("ru-1", "office") := by
    apply huniq
    intro j hj _
    by_contra hne
    have ha0 : lookupD [(("ru-1", "office"), 2)] j = 0 :=
      lookupD_eq_zero_of_not_mem (by simpa [keys] using hne)
    have hd0 : lookupD [(("ru-1", "office"), 0)] j = 0 :=
      lookupD_eq_zero_of_not_mem (by simpa [keys] using hne)
    simp only [delta, ha0, hd0] at hj
    omega
  rw [hkk] at hk'
  exact hk'

/-- Claim C3 counterexample: in check mode a negative quantity does not
fail with `InvalidQuantity` — the module exits with `changed = false`. -/
theorem check_mode_negative_quantity_no_failure :
    run_check paramsNegQty clientEmpty = (Outcome.exit false, []) ∧
    (run_check paramsNegQty clientEmpty).1
      ≠ Outcome.fail SelvpcError.invalidQuantity := by decide

/-- Claim C3 witness. -/
theorem negative_quantity_outcomes_witness :
    run_real paramsNegQty clientEmpty
      = (Outcome.fail SelvpcError.invalidQuantity, []) ∧
    run_check paramsNegQty clientEmpty = (Outcome.exit false, []) :=
  negative_quantity_outcomes paramsNegQty clientEmpty rfl (by decide)
    (by decide) (by decide)

/-- Claim C4 witness: on the spec's example the key to add is not also a
key to delete. -/
theorem to_add_to_delete_disjoint_witness :
    ¬(("ru-2", "office") ∈ keys toAddSample ∧
      ("ru-2", "office") ∈ keys ([] : CountMap)) :=
  (to_add_to_delete_disjoint actualSample desiredSample (fun _ => false)
    false toAddSample [] (by decide) ("ru-2", "office")).1

/-- Claim C5 witness: applying the computed diff and reconciling again
yields empty maps. -/
theorem reconcile_idempotent_witness :
    compare_existed_and_needed_objects
      (applyResult actualSample toAddSample []) desiredSample
      (fun _ => false) false = Except.ok ([], []) :=
  (reconcile_idempotent actualSample desiredSample (fun _ => false) false
    toAddSample [] (by decide)).2 (fun _ => false) false

/-- Claim C6 witness. -/
theorem equal_state_reports_unchanged_witness :
    compare_existed_and_needed_objects actualSample actualSample
      (fun _ => true) false = Except.ok ([], []) :=
  equal_state_reports_unchanged.1 actualSample actualSample (fun _ => true)
    false (fun _ => rfl)

/-- Claim C7 witness: the spec's forced-deletion example. -/
theorem force_overrides_active_witness :
    compare_existed_and_needed_objects
        [(("ru-1", "office"), 2)] [(("ru-1", "office"), 0)]
        (fun _ => true) true
      = Except.ok ([], [(("ru-1", "office"), 2)]) :=
  (force_overrides_active [(("ru-1", "office"), 2)]
    [(("ru-1", "office"), 0)] (fun _ => true) ("ru-1", "office")
    (by decide) rfl).2

/-- Claim C8 counterexample: with state 'absent' and only the list flag
set, a list query was supplied and yet the run fails with
`MissingParameters`. -/
theorem absent_list_query_still_missing_params :
    paramsAbsentList.show_list = true ∧
    (run_real paramsAbsentList clientOneActive).1
      = Outcome.fail SelvpcError.missingParameters := by decide

/-- Claim C8 witness. -/
theorem missing_parameters_iff_witness :
    (run_real paramsAbsentList clientOneActive).1
      = Outcome.fail SelvpcError.missingParameters :=
  (missing_parameters_iff paramsAbsentList clientOneActive).1.mpr
    (Or.inl ⟨rfl, rfl⟩)

/-- Claim C9 counterexample: a check-mode run can fail — a blocked
deletion (ACTIVE records, no force) propagates `ActiveResourceConflict`
out of `_system_state_change`. -/
theorem check_mode_conflict_failure :
    (run_check paramsConflict clientOneActive).1
      = Outcome.fail
          (SelvpcError.activeResourceConflict ("ru-1", "office")) := by
  decide

/-- Claim C9 witness: an unresolvable project name yields
`changed = false` in check mode. -/
theorem check_mode_swallows_input_errors_witness :
    (run_check paramsNameOnly clientEmpty).1 = Outcome.exit false :=
  (check_mode_swallows_input_errors paramsNameOnly clientEmpty).2.1
    rfl rfl rfl

/-- Claim C10 witness: with a show call that succeeds, check mode
reports `changed = true` for an absent-state deletion. -/
theorem check_absent_changed_iff_show_ok_witness :
    (run_check paramsAbsentId clientOneActive).1 = Outcome.exit true :=
  (check_absent_changed_iff_show_ok paramsAbsentId clientOneActive "L1"
    rfl rfl (by decide)).1.mpr ⟨sampleRecord, rfl⟩

end Selvpc
